import Mathlib

/-!
Shallow embedding of the foozball rating and statistics engines.

The rating engine (src/backend/app/services/trueskill_service.py) delegates its
numerical core to the third-party `trueskill` python library configured with
mu = 25.0, sigma = 8.3333, beta = 4.1667, tau = 0.0833 and draw probability 0.
For two competing sides this library computes the documented closed-form
Gaussian update: variances are first inflated by tau squared, the performance
difference is scaled by c = sqrt of the combined variance, and the
truncated-Gaussian correction functions v and w built from the standard normal
pdf and cdf drive the mean shift and the variance shrink.  Those closed forms
are embedded here over the real numbers; the repository code on top of them
(winner dispatch, team composition, statistics queries) is translated
line by line from the python source.
-/

open MeasureTheory Real Set Filter

noncomputable section

namespace Foozball

/-- Environment constant mu from TrueSkillService.__init__. -/
def MU0 : ℝ := 25.0

/-- Environment constant sigma from TrueSkillService.__init__. -/
def SIGMA0 : ℝ := 8.3333

/-- Environment constant beta from TrueSkillService.__init__. -/
def BETA : ℝ := 4.1667

/-- Environment constant tau from TrueSkillService.__init__. -/
def TAU : ℝ := 0.0833

/-- Standard normal probability density, as used by trueskill.TrueSkill.pdf. -/
def normalPdf (x : ℝ) : ℝ := (Real.sqrt (2 * Real.pi))⁻¹ * Real.exp (-(x ^ 2) / 2)

/-- Standard normal cumulative distribution, as used by trueskill.TrueSkill.cdf. -/
def normalCdf (x : ℝ) : ℝ := ∫ t in Iic x, normalPdf t

/-- Truncated-Gaussian mean-shift term: trueskill v_win with draw margin 0. -/
def vWin (t : ℝ) : ℝ := normalPdf t / normalCdf t

/-- Truncated-Gaussian variance-shrink term: trueskill w_win with draw margin 0. -/
def wWin (t : ℝ) : ℝ := vWin t * (vWin t + t)

/-- A trueskill.Rating value: a Gaussian skill belief. -/
structure Rating where
  mu : ℝ
  sigma : ℝ

/-- A row of the players table (app/models/player.py), restricted to the fields
that the rating engine and the statistics engine read. -/
structure Player where
  id : ℤ
  trueskill_mu : ℝ
  trueskill_sigma : ℝ
  games_played : ℤ
  wins : ℤ
  losses : ℤ
  is_active : Bool

/-- TrueSkillService.get_player_rating. -/
def get_player_rating (player : Player) : Rating :=
  ⟨player.trueskill_mu, player.trueskill_sigma⟩

/-- Combined performance variance of a two-team trueskill.rate call with one
player per team: both tau-inflated variances plus two beta squared. -/
def tsC2 (w l : Rating) : ℝ :=
  (w.sigma ^ 2 + TAU ^ 2) + (l.sigma ^ 2 + TAU ^ 2) + 2 * BETA ^ 2

/-- Scaled mean difference fed to the truncation functions in trueskill.rate. -/
def tsT (w l : Rating) : ℝ := (w.mu - l.mu) / Real.sqrt (tsC2 w l)

/-- Closed form of trueskill.rate for two single-player teams, winner first:
tau-inflated variances, mean shift by the v correction scaled by the own
variance share, variance shrink by the w correction. -/
def rateWinLoss (w l : Rating) : Rating × Rating :=
  (⟨w.mu + (w.sigma ^ 2 + TAU ^ 2) / Real.sqrt (tsC2 w l) * vWin (tsT w l),
    Real.sqrt ((w.sigma ^ 2 + TAU ^ 2)
      * (1 - (w.sigma ^ 2 + TAU ^ 2) / tsC2 w l * wWin (tsT w l)))⟩,
   ⟨l.mu - (l.sigma ^ 2 + TAU ^ 2) / Real.sqrt (tsC2 w l) * vWin (tsT w l),
    Real.sqrt ((l.sigma ^ 2 + TAU ^ 2)
      * (1 - (l.sigma ^ 2 + TAU ^ 2) / tsC2 w l * wWin (tsT w l)))⟩)

/-- TrueSkillService.calculate_new_ratings: dispatch on the winner id, run the
two-team trueskill update, raise ValueError for an unknown winner id. -/
def calculate_new_ratings (player1 player2 : Player) (winner_id : ℤ) :
    Except String (Rating × Rating) :=
  if winner_id = player1.id then
    Except.ok (rateWinLoss (get_player_rating player1) (get_player_rating player2))
  else if winner_id = player2.id then
    let r := rateWinLoss (get_player_rating player2) (get_player_rating player1)
    Except.ok (r.2, r.1)
  else Except.error "winner id must be the id of one of the two players"

/-- A row of the teams table (app/models/team.py) restricted to the fields the
team-game endpoints read. -/
structure Team where
  id : ℤ
  player1_id : ℤ
  player2_id : ℤ
  trueskill_mu : ℝ
  trueskill_sigma : ℝ
  games_played : ℤ
  wins : ℤ
  losses : ℤ
  is_active : Bool

/-- A row of the team_games table (app/models/teamgame.py). -/
structure TeamGame where
  id : ℤ
  team1_id : ℤ
  team2_id : ℤ
  winner_team_id : ℤ

/-- A team together with its two member rows, as loaded through the ORM
relationships Team.player1 and Team.player2. -/
structure TeamWithPlayers where
  id : ℤ
  player1 : Player
  player2 : Player

/-- TrueSkillService.get_team_rating. -/
def get_team_rating (team : Team) : Rating :=
  ⟨team.trueskill_mu, team.trueskill_sigma⟩

/-- TrueSkillService.calculate_new_team_ratings: like the player version but on
team rows. -/
def calculate_new_team_ratings (team1 team2 : Team) (winner_team_id : ℤ) :
    Except String (Rating × Rating) :=
  if winner_team_id = team1.id then
    Except.ok (rateWinLoss (get_team_rating team1) (get_team_rating team2))
  else if winner_team_id = team2.id then
    let r := rateWinLoss (get_team_rating team2) (get_team_rating team1)
    Except.ok (r.2, r.1)
  else Except.error "winner team id must be the id of one of the two teams"

/-- TrueSkillService.update_team_ratings: write the new beliefs back onto the
team rows and bump the game and win or loss counters. -/
def update_team_ratings (team1 team2 : Team) (winner_team_id : ℤ) :
    Except String (Team × Team) :=
  match calculate_new_team_ratings team1 team2 winner_team_id with
  | Except.error e => Except.error e
  | Except.ok (r1, r2) =>
    Except.ok
      ({ team1 with
          trueskill_mu := r1.mu
          trueskill_sigma := r1.sigma
          games_played := team1.games_played + 1
          wins := if winner_team_id = team1.id then team1.wins + 1 else team1.wins
          losses :=
            if winner_team_id = team1.id then team1.losses else team1.losses + 1 },
       { team2 with
          trueskill_mu := r2.mu
          trueskill_sigma := r2.sigma
          games_played := team2.games_played + 1
          wins := if winner_team_id = team2.id then team2.wins + 1 else team2.wins
          losses :=
            if winner_team_id = team2.id then team2.losses else team2.losses + 1 })

/-- Combined performance variance of a two-team trueskill.rate call with two
players per team: all four tau-inflated variances plus four beta squared. -/
def ts4C2 (a b c d : Rating) : ℝ :=
  (a.sigma ^ 2 + TAU ^ 2) + (b.sigma ^ 2 + TAU ^ 2)
    + (c.sigma ^ 2 + TAU ^ 2) + (d.sigma ^ 2 + TAU ^ 2) + 4 * BETA ^ 2

/-- Scaled team-mean difference fed to the truncation functions, winners
first. -/
def ts4T (w1 w2 l1 l2 : Rating) : ℝ :=
  ((w1.mu + w2.mu) - (l1.mu + l2.mu)) / Real.sqrt (ts4C2 w1 w2 l1 l2)

/-- Closed form of trueskill.rate for two two-player teams, the winning pair
first: every member is shifted by the common v correction scaled by its own
tau-inflated variance share, and shrunk by the common w correction. -/
def rateTeamWin (w1 w2 l1 l2 : Rating) : (Rating × Rating) × (Rating × Rating) :=
  let c2 := ts4C2 w1 w2 l1 l2
  let c := Real.sqrt c2
  let v := vWin (ts4T w1 w2 l1 l2)
  let wq := wWin (ts4T w1 w2 l1 l2)
  ((⟨w1.mu + (w1.sigma ^ 2 + TAU ^ 2) / c * v,
     Real.sqrt ((w1.sigma ^ 2 + TAU ^ 2)
       * (1 - (w1.sigma ^ 2 + TAU ^ 2) / c2 * wq))⟩,
    ⟨w2.mu + (w2.sigma ^ 2 + TAU ^ 2) / c * v,
     Real.sqrt ((w2.sigma ^ 2 + TAU ^ 2)
       * (1 - (w2.sigma ^ 2 + TAU ^ 2) / c2 * wq))⟩),
   (⟨l1.mu - (l1.sigma ^ 2 + TAU ^ 2) / c * v,
     Real.sqrt ((l1.sigma ^ 2 + TAU ^ 2)
       * (1 - (l1.sigma ^ 2 + TAU ^ 2) / c2 * wq))⟩,
    ⟨l2.mu - (l2.sigma ^ 2 + TAU ^ 2) / c * v,
     Real.sqrt ((l2.sigma ^ 2 + TAU ^ 2)
       * (1 - (l2.sigma ^ 2 + TAU ^ 2) / c2 * wq))⟩))

/-- TrueSkillService.calculate_team_vs_individual_ratings: dispatch the 2v2
update on winning_team being 1 or 2, returning team 1 member ratings first;
any other value raises ValueError. -/
def calculate_team_vs_individual_ratings
    (t1p1 t1p2 t2p1 t2p2 : Player) (winning_team : ℤ) :
    Except String ((Rating × Rating) × (Rating × Rating)) :=
  if winning_team = 1 then
    Except.ok (rateTeamWin (get_player_rating t1p1) (get_player_rating t1p2)
      (get_player_rating t2p1) (get_player_rating t2p2))
  else if winning_team = 2 then
    let r := rateTeamWin (get_player_rating t2p1) (get_player_rating t2p2)
      (get_player_rating t1p1) (get_player_rating t1p2)
    Except.ok (r.2, r.1)
  else Except.error "winning_team must be 1 or 2"

/-- TrueSkillService.update_players_from_team_game: derive winning_team as 1
exactly when the given winner id equals the id of team 1 and as 2 in every other
case, update the four member rows with the 2v2 ratings, bump games_played, and
credit wins to the side picked by the same comparison. -/
def update_players_from_team_game (team1 team2 : TeamWithPlayers)
    (winner_team_id : ℤ) :
    Except String ((Player × Player) × (Player × Player)) :=
  let winning_team : ℤ := if winner_team_id = team1.id then 1 else 2
  match calculate_team_vs_individual_ratings team1.player1 team1.player2
      team2.player1 team2.player2 winning_team with
  | Except.error e => Except.error e
  | Except.ok ((r11, r12), (r21, r22)) =>
    let p11 := { team1.player1 with
      trueskill_mu := r11.mu
      trueskill_sigma := r11.sigma
      games_played := team1.player1.games_played + 1 }
    let p12 := { team1.player2 with
      trueskill_mu := r12.mu
      trueskill_sigma := r12.sigma
      games_played := team1.player2.games_played + 1 }
    let p21 := { team2.player1 with
      trueskill_mu := r21.mu
      trueskill_sigma := r21.sigma
      games_played := team2.player1.games_played + 1 }
    let p22 := { team2.player2 with
      trueskill_mu := r22.mu
      trueskill_sigma := r22.sigma
      games_played := team2.player2.games_played + 1 }
    if winner_team_id = team1.id then
      Except.ok (({ p11 with wins := p11.wins + 1 },
                  { p12 with wins := p12.wins + 1 }),
                 ({ p21 with losses := p21.losses + 1 },
                  { p22 with losses := p22.losses + 1 }))
    else
      Except.ok (({ p11 with losses := p11.losses + 1 },
                  { p12 with losses := p12.losses + 1 }),
                 ({ p21 with wins := p21.wins + 1 },
                  { p22 with wins := p22.wins + 1 }))

/-- Team.create_team_key (app/models/team.py): the canonical ordered pair of
two distinct player ids; equal ids raise ValueError. -/
def create_team_key (player_id_1 player_id_2 : ℤ) : Except String (ℤ × ℤ) :=
  if player_id_1 = player_id_2 then Except.error "Players must be different"
  else Except.ok (min player_id_1 player_id_2, max player_id_1 player_id_2)

/-- A row of the rating_history table (app/models/rating_history.py)
restricted to the fields the trend computation reads; float ratings are
modelled as rationals. -/
structure RatingHistoryEntry where
  created_at : ℤ
  trueskill_mu_before : ℚ
  trueskill_sigma_before : ℚ
  trueskill_mu_after : ℚ
  trueskill_sigma_after : ℚ

/-- RatingHistory.conservative_rating_before. -/
def conservative_rating_before (r : RatingHistoryEntry) : ℚ :=
  r.trueskill_mu_before - 3 * r.trueskill_sigma_before

/-- RatingHistory.conservative_rating_after. -/
def conservative_rating_after (r : RatingHistoryEntry) : ℚ :=
  r.trueskill_mu_after - 3 * r.trueskill_sigma_after

/-- Second half of the rating_change computation of _calculate_trend: on the
already filtered period history, subtract the conservative rating before the
first entry from the conservative rating after the last entry, but only when
the list has at least two entries; otherwise rating_change stays 0. -/
def trend_change_of_period : List RatingHistoryEntry → ℚ
  | [] => 0
  | e :: rest =>
    if 2 ≤ (e :: rest).length then
      conservative_rating_after ((e :: rest).getLast (List.cons_ne_nil e rest))
        - conservative_rating_before e
    else 0

/-- The rating_change computation of _calculate_trend in
app/api/v1/statistics.py: filter the rating history to entries at or after the
cutoff, then apply the two-entry rule. -/
def trend_rating_change (rating_history : List RatingHistoryEntry)
    (cutoff : ℤ) : ℚ :=
  trend_change_of_period (rating_history.filter (fun r => cutoff ≤ r.created_at))

/-- A row of the games table restricted to what the streak computation reads;
the list order carries the most-recent-first sort. -/
structure GameRec where
  winner_id : ℤ

/-- The streak-counting loop of get_player_statistics: walk the games most
recent first, counting while the result keeps matching the streak type,
stopping at the first mismatch. -/
def streak_scan (player_id : ℤ) (streak_type : String) : List GameRec → ℕ
  | [] => 0
  | g :: rest =>
    if (g.winner_id = player_id ∧ streak_type = "W")
        ∨ (g.winner_id ≠ player_id ∧ streak_type = "L") then
      streak_scan player_id streak_type rest + 1
    else 0

/-- The current-streak computation of get_player_statistics in
app/api/v1/statistics.py: a sentinel string for no games, otherwise the streak
type comes from the most recent game and the count from the scan loop. -/
def current_streak (player_id : ℤ) (all_games : List GameRec) : String :=
  match all_games with
  | [] => "No games played"
  | g :: rest =>
    let streak_type := if g.winner_id = player_id then "W" else "L"
    let streak_count := streak_scan player_id streak_type (g :: rest)
    let streak_word := if streak_type = "W" then "win" else "loss"
    toString streak_count ++ " game " ++ streak_word ++ " streak"

/-- TrueSkillService.calculate_initial_team_rating: mean is the sum of member
means, sigma is the square root of the sum of member variances. -/
def calculate_initial_team_rating (player1 player2 : Player) : ℝ × ℝ :=
  (player1.trueskill_mu + player2.trueskill_mu,
   Real.sqrt (player1.trueskill_sigma ^ 2 + player2.trueskill_sigma ^ 2))

/-- Body of the quick team-game endpoint request
(TeamFormationRequest in app/schemas/team.py). -/
structure TeamFormationRequest where
  team1_player1_id : ℤ
  team1_player2_id : ℤ
  team2_player1_id : ℤ
  team2_player2_id : ℤ
  winner_team : ℤ

/-- The database state the team-game endpoints read and write. -/
structure DB where
  players : List Player
  teams : List Team
  team_games : List TeamGame
  next_id : ℤ

/-- Query for an active player by id. -/
def find_active_player (db : DB) (pid : ℤ) : Option Player :=
  db.players.find? (fun p => p.id == pid && p.is_active)

/-- Query for an active team by its ordered member pair. -/
def find_active_team (db : DB) (low high : ℤ) : Option Team :=
  db.teams.find? (fun t => t.player1_id == low && t.player2_id == high && t.is_active)

/-- Write an updated player row back by id. -/
def replace_player (rows : List Player) (p : Player) : List Player :=
  rows.map (fun q => if q.id == p.id then p else q)

/-- Write an updated team row back by id. -/
def replace_team (rows : List Team) (t : Team) : List Team :=
  rows.map (fun s => if s.id == t.id then t else s)

/-- create_team_game_from_players in app/api/v1/teamgames.py, with the
database threaded explicitly; every error path rolls the transaction back and
returns the incoming state untouched.  The duplicate-id validation runs before
any lookup or write. -/
def create_team_game_from_players (req : TeamFormationRequest) (db : DB) :
    DB × Except String TeamGame :=
  let player_ids := [req.team1_player1_id, req.team1_player2_id,
                     req.team2_player1_id, req.team2_player2_id]
  if player_ids.dedup.length ≠ 4 then
    (db, Except.error "All four players must be different")
  else
    match find_active_player db req.team1_player1_id,
        find_active_player db req.team1_player2_id,
        find_active_player db req.team2_player1_id,
        find_active_player db req.team2_player2_id with
    | some p11, some p12, some p21, some p22 =>
      match create_team_key req.team1_player1_id req.team1_player2_id,
          create_team_key req.team2_player1_id req.team2_player2_id with
      | Except.ok k1, Except.ok k2 =>
        let pick1 :=
          match find_active_team db k1.1 k1.2 with
          | some t => (t, db)
          | none =>
            let init := calculate_initial_team_rating p11 p12
            let t : Team := ⟨db.next_id, k1.1, k1.2, init.1, init.2, 0, 0, 0, true⟩
            (t, { db with teams := db.teams ++ [t], next_id := db.next_id + 1 })
        let team1 := pick1.1
        let db1 := pick1.2
        let pick2 :=
          match find_active_team db1 k2.1 k2.2 with
          | some t => (t, db1)
          | none =>
            let init := calculate_initial_team_rating p21 p22
            let t : Team := ⟨db1.next_id, k2.1, k2.2, init.1, init.2, 0, 0, 0, true⟩
            (t, { db1 with teams := db1.teams ++ [t], next_id := db1.next_id + 1 })
        let team2 := pick2.1
        let db2 := pick2.2
        let winner_team_id := if req.winner_team = 1 then team1.id else team2.id
        let game : TeamGame := ⟨db2.next_id, team1.id, team2.id, winner_team_id⟩
        let db3 := { db2 with
          team_games := db2.team_games ++ [game]
          next_id := db2.next_id + 1 }
        match update_team_ratings team1 team2 winner_team_id with
        | Except.error e => (db, Except.error e)
        | Except.ok (t1, t2) =>
          match update_players_from_team_game ⟨team1.id, p11, p12⟩
              ⟨team2.id, p21, p22⟩ winner_team_id with
          | Except.error e => (db, Except.error e)
          | Except.ok ((q11, q12), (q21, q22)) =>
            let db4 := { db3 with
              teams := replace_team (replace_team db3.teams t1) t2
              players := replace_player (replace_player (replace_player
                (replace_player db3.players q11) q12) q21) q22 }
            (db4, Except.ok game)
      | Except.error e, _ => (db, Except.error e)
      | _, Except.error e => (db, Except.error e)
    | _, _, _, _ => (db, Except.error "Player not found or inactive")

/-- A player row as the leaderboard endpoint reads it; float ratings are
modelled as rationals. -/
structure LeaderboardPlayer where
  id : ℤ
  trueskill_mu : ℚ
  trueskill_sigma : ℚ
  games_played : ℕ
  wins : ℕ
  losses : ℕ
  is_active : Bool

/-- The ranking key mu - 3 sigma used by the leaderboard sort. -/
def conservative_rating (p : LeaderboardPlayer) : ℚ :=
  p.trueskill_mu - 3 * p.trueskill_sigma

/-- The sort key selected by the sort_by query parameter of
get_enhanced_leaderboard; unknown values fall back to the rating key. -/
def leaderboard_sort_key (sort_by : String) (p : LeaderboardPlayer) : ℚ :=
  if sort_by = "rating" then conservative_rating p
  else if sort_by = "wins" then p.wins
  else if sort_by = "games" then p.games_played
  else if sort_by = "win_rate" then (p.wins : ℚ) / max (p.games_played : ℚ) 1
  else conservative_rating p

/-- Stable descending insertion for the ORDER BY ... DESC model: a row goes
before the first row with a strictly smaller key, so equal keys keep their
incoming order. -/
def insert_desc (key : LeaderboardPlayer → ℚ) (p : LeaderboardPlayer) :
    List LeaderboardPlayer → List LeaderboardPlayer
  | [] => [p]
  | q :: rest =>
    if key q < key p then p :: q :: rest else q :: insert_desc key p rest

/-- Stable descending sort for the ORDER BY ... DESC model. -/
def sort_desc (key : LeaderboardPlayer → ℚ) :
    List LeaderboardPlayer → List LeaderboardPlayer
  | [] => []
  | p :: rest => insert_desc key p (sort_desc key rest)

/-- The query built by get_enhanced_leaderboard in app/api/v1/statistics.py:
active players, the optional min_games filter, then the descending sort by
the selected key. -/
def leaderboard_query (players : List LeaderboardPlayer) (min_games : ℕ)
    (sort_by : String) : List LeaderboardPlayer :=
  let base := players.filter (fun p => p.is_active)
  let filtered :=
    if 0 < min_games then base.filter (fun p => min_games ≤ p.games_played)
    else base
  sort_desc (leaderboard_sort_key sort_by) filtered

/-- The pagination and rank numbering of get_enhanced_leaderboard: slice the
sorted query at offset (page - 1) * page_size and enumerate ranks starting
from offset + 1. -/
def get_enhanced_leaderboard (players : List LeaderboardPlayer)
    (page page_size min_games : ℕ) (sort_by : String) :
    List (ℕ × LeaderboardPlayer) :=
  let sorted := leaderboard_query players min_games sort_by
  let offset := (page - 1) * page_size
  ((sorted.drop offset).take page_size).enum.map (fun x => (offset + 1 + x.1, x.2))

/-- Sample leaderboard rows for the c8 witness. -/
def lbA : LeaderboardPlayer := ⟨1, 30, 1, 10, 8, 2, true⟩

/-- Sample leaderboard rows for the c8 witness. -/
def lbB : LeaderboardPlayer := ⟨2, 20, 1, 10, 4, 6, true⟩

/-- Sample leaderboard rows for the c8 witness. -/
def lbC : LeaderboardPlayer := ⟨3, 40, 1, 10, 9, 1, true⟩

/-- Closed form of trueskill.quality for two single-player teams: the square
root of 2 beta^2 over the combined variance, damped by a Gaussian factor in the
mean gap.  Quality applies no tau inflation. -/
def qualityTwoTeams (r1 r2 : Rating) : ℝ :=
  Real.sqrt (2 * BETA ^ 2 / (2 * BETA ^ 2 + r1.sigma ^ 2 + r2.sigma ^ 2))
    * Real.exp (-((r1.mu - r2.mu) ^ 2)
        / (2 * (2 * BETA ^ 2 + r1.sigma ^ 2 + r2.sigma ^ 2)))

/-- TrueSkillService.get_match_quality. -/
def get_match_quality (player1 player2 : Player) : ℝ :=
  qualityTwoTeams (get_player_rating player1) (get_player_rating player2)

/-- TrueSkillService.predict_win_probability: the standard normal cdf of the
mean difference divided by sqrt(2 beta^2 + sigma1^2 + sigma2^2). -/
def predict_win_probability (player1 player2 : Player) : ℝ :=
  normalCdf ((player1.trueskill_mu - player2.trueskill_mu)
    / Real.sqrt (2 * BETA ^ 2
        + (player1.trueskill_sigma ^ 2 + player2.trueskill_sigma ^ 2)))

lemma normalPdf_pos (x : ℝ) : 0 < normalPdf x := by
  unfold normalPdf
  have h2pi : (0 : ℝ) < 2 * Real.pi := by positivity
  positivity

lemma normalPdf_eq (x : ℝ) :
    normalPdf x = (Real.sqrt (2 * Real.pi))⁻¹ * Real.exp (-(1 / 2 : ℝ) * x ^ 2) := by
  unfold normalPdf
  rw [show -(x ^ 2) / 2 = -(1 / 2 : ℝ) * x ^ 2 by ring]

lemma integrable_normalPdf : Integrable normalPdf := by
  have h : Integrable (fun x : ℝ => Real.exp (-(1 / 2 : ℝ) * x ^ 2)) :=
    integrable_exp_neg_mul_sq (by norm_num)
  have h2 := h.const_mul (Real.sqrt (2 * Real.pi))⁻¹
  exact h2.congr (Filter.Eventually.of_forall fun x => (normalPdf_eq x).symm)

lemma integral_normalPdf : (∫ x, normalPdf x) = 1 := by
  have h1 : (∫ x, normalPdf x)
      = (Real.sqrt (2 * Real.pi))⁻¹ * ∫ x : ℝ, Real.exp (-(1 / 2 : ℝ) * x ^ 2) := by
    rw [← integral_mul_left]
    exact integral_congr_ae (Filter.Eventually.of_forall fun x => normalPdf_eq x)
  rw [h1, integral_gaussian]
  have h2 : Real.pi / (1 / 2 : ℝ) = 2 * Real.pi := by ring
  rw [h2]
  have h3 : Real.sqrt (2 * Real.pi) ≠ 0 := by
    have : (0 : ℝ) < 2 * Real.pi := by positivity
    exact (Real.sqrt_pos.mpr this).ne'
  exact inv_mul_cancel₀ h3

lemma normalPdf_neg (x : ℝ) : normalPdf (-x) = normalPdf x := by
  unfold normalPdf
  rw [neg_sq]

lemma normalCdf_add_neg (x : ℝ) : normalCdf x + normalCdf (-x) = 1 := by
  have hneg : normalCdf (-x) = ∫ t in Ioi x, normalPdf t := by
    have h1 : normalCdf (-x) = ∫ t in Iic (-x), normalPdf (-t) := by
      unfold normalCdf
      exact setIntegral_congr_fun measurableSet_Iic fun t _ => (normalPdf_neg t).symm
    rw [h1, integral_comp_neg_Iic, neg_neg]
  rw [hneg]
  unfold normalCdf
  rw [intervalIntegral.integral_Iic_add_Ioi integrable_normalPdf.integrableOn
    integrable_normalPdf.integrableOn]
  exact integral_normalPdf

lemma normalCdf_zero : normalCdf 0 = 1 / 2 := by
  have h := normalCdf_add_neg 0
  rw [neg_zero] at h
  linarith

lemma normalCdf_pos (x : ℝ) : 0 < normalCdf x := by
  unfold normalCdf
  rw [setIntegral_pos_iff_support_of_nonneg_ae
    (Filter.Eventually.of_forall fun y => (normalPdf_pos y).le)
    integrable_normalPdf.integrableOn]
  have hsupp : Function.support normalPdf = Set.univ :=
    Set.eq_univ_of_forall fun y => (normalPdf_pos y).ne'
  rw [hsupp, Set.univ_inter, Real.volume_Iic]
  exact ENNReal.zero_lt_top

lemma normalCdf_mono {a b : ℝ} (h : a ≤ b) : normalCdf a ≤ normalCdf b := by
  unfold normalCdf
  exact setIntegral_mono_set integrable_normalPdf.integrableOn
    (Filter.Eventually.of_forall fun y => (normalPdf_pos y).le)
    (HasSubset.Subset.eventuallyLE (Iic_subset_Iic.mpr h))

lemma half_le_normalCdf {x : ℝ} (h : 0 ≤ x) : 1 / 2 ≤ normalCdf x :=
  normalCdf_zero ▸ normalCdf_mono h

lemma vWin_pos (t : ℝ) : 0 < vWin t := div_pos (normalPdf_pos t) (normalCdf_pos t)

lemma two_le_sqrt_two_pi : (2 : ℝ) ≤ Real.sqrt (2 * Real.pi) := by
  have h : (2 : ℝ) ^ 2 ≤ 2 * Real.pi := by nlinarith [Real.pi_gt_three]
  have h2 := Real.sqrt_le_sqrt h
  rwa [Real.sqrt_sq (by norm_num : (0 : ℝ) ≤ 2)] at h2

lemma normalPdf_le_half_exp (t : ℝ) :
    normalPdf t ≤ 1 / 2 * Real.exp (-(t ^ 2) / 2) := by
  unfold normalPdf
  have h1 : (Real.sqrt (2 * Real.pi))⁻¹ ≤ 1 / 2 := by
    rw [show (1 : ℝ) / 2 = 2⁻¹ by norm_num]
    exact inv_anti₀ (by norm_num) two_le_sqrt_two_pi
  exact mul_le_mul_of_nonneg_right h1 (Real.exp_nonneg _)

lemma vWin_le_exp {t : ℝ} (h : 0 ≤ t) : vWin t ≤ Real.exp (-(t ^ 2) / 2) := by
  unfold vWin
  rw [div_le_iff₀ (normalCdf_pos t)]
  have h1 := normalPdf_le_half_exp t
  have h2 := half_le_normalCdf h
  nlinarith [Real.exp_nonneg (-(t ^ 2) / 2)]

lemma hasDerivAt_neg_normalPdf (s : ℝ) :
    HasDerivAt (fun y : ℝ => -normalPdf y) (s * normalPdf s) s := by
  have h1 : HasDerivAt (fun y : ℝ => -(y ^ 2) / 2) (-s) s := by
    have h0 := (hasDerivAt_pow 2 s).neg.div_const 2
    norm_num at h0
    convert h0 using 1
    ring
  have h2 := h1.exp
  have h3 := (h2.const_mul ((Real.sqrt (2 * Real.pi))⁻¹)).neg
  have hval : -((Real.sqrt (2 * Real.pi))⁻¹ * (Real.exp (-(s ^ 2) / 2) * -s))
      = s * normalPdf s := by
    unfold normalPdf; ring
  exact hval ▸ h3

lemma tendsto_neg_normalPdf_atBot :
    Tendsto (fun y : ℝ => -normalPdf y) atBot (nhds 0) := by
  have h1 : Tendsto (fun y : ℝ => -(y ^ 2) / 2) atBot atBot := by
    apply tendsto_atBot_mono' atBot ?_ tendsto_id
    filter_upwards [Filter.eventually_le_atBot (-2 : ℝ)] with y hy
    simp only [id]
    nlinarith
  have h2 : Tendsto (fun y : ℝ => Real.exp (-(y ^ 2) / 2)) atBot (nhds 0) :=
    Real.tendsto_exp_atBot.comp h1
  have h3 := (h2.const_mul ((Real.sqrt (2 * Real.pi))⁻¹)).neg
  simpa [normalPdf] using h3

lemma integrable_mul_normalPdf : Integrable (fun s : ℝ => s * normalPdf s) := by
  have h : Integrable (fun x : ℝ => x * Real.exp (-(1 / 2 : ℝ) * x ^ 2)) :=
    integrable_mul_exp_neg_mul_sq (by norm_num)
  have h2 := h.const_mul ((Real.sqrt (2 * Real.pi))⁻¹)
  refine h2.congr (Filter.Eventually.of_forall fun x => ?_)
  show (Real.sqrt (2 * Real.pi))⁻¹ * (x * Real.exp (-(1 / 2 : ℝ) * x ^ 2))
      = x * normalPdf x
  rw [normalPdf_eq]; ring

lemma integral_Iic_mul_normalPdf (t : ℝ) :
    (∫ s in Iic t, s * normalPdf s) = -normalPdf t := by
  have h := MeasureTheory.integral_Iic_of_hasDerivAt_of_tendsto'
    (fun x (_ : x ∈ Iic t) => hasDerivAt_neg_normalPdf x)
    integrable_mul_normalPdf.integrableOn
    tendsto_neg_normalPdf_atBot
  simpa using h

lemma mills_nonneg (t : ℝ) : 0 ≤ normalPdf t + t * normalCdf t := by
  rcases le_or_lt 0 t with h | h
  · nlinarith [normalPdf_pos t, normalCdf_pos t]
  · have hle : normalCdf t ≤ ∫ s in Iic t, t⁻¹ * (s * normalPdf s) := by
      unfold normalCdf
      apply setIntegral_mono_on integrable_normalPdf.integrableOn
        ((integrable_mul_normalPdf.const_mul t⁻¹).integrableOn) measurableSet_Iic
      intro s hs
      have hst : s ≤ t := hs
      have h1 : 1 ≤ s / t := by
        rw [le_div_iff_of_neg h]
        linarith
      calc normalPdf s = 1 * normalPdf s := (one_mul _).symm
        _ ≤ s / t * normalPdf s := mul_le_mul_of_nonneg_right h1 (normalPdf_pos s).le
        _ = t⁻¹ * (s * normalPdf s) := by ring
    rw [integral_mul_left, integral_Iic_mul_normalPdf] at hle
    have h2 : t * (t⁻¹ * -normalPdf t) ≤ t * normalCdf t :=
      mul_le_mul_of_nonpos_left hle h.le
    rw [← mul_assoc, mul_inv_cancel₀ h.ne, one_mul] at h2
    linarith

lemma vWin_add_nonneg (t : ℝ) : 0 ≤ vWin t + t := by
  have h := mills_nonneg t
  have hc := normalCdf_pos t
  have heq : vWin t + t = (normalPdf t + t * normalCdf t) / normalCdf t := by
    unfold vWin
    field_simp
  rw [heq]
  exact div_nonneg h hc.le

lemma wWin_nonneg (t : ℝ) : 0 ≤ wWin t :=
  mul_nonneg (vWin_pos t).le (vWin_add_nonneg t)

lemma varTau_pos (x : ℝ) : 0 < x ^ 2 + TAU ^ 2 := by
  unfold TAU
  positivity

lemma tsC2_pos (w l : Rating) : 0 < tsC2 w l := by
  unfold tsC2 TAU BETA
  positivity

lemma sqrt_tsC2_pos (w l : Rating) : 0 < Real.sqrt (tsC2 w l) :=
  Real.sqrt_pos.mpr (tsC2_pos w l)

lemma rateWinLoss_winner_mu (w l : Rating) : w.mu ≤ (rateWinLoss w l).1.mu := by
  have h : 0 < (w.sigma ^ 2 + TAU ^ 2) / Real.sqrt (tsC2 w l) * vWin (tsT w l) :=
    mul_pos (div_pos (varTau_pos w.sigma) (sqrt_tsC2_pos w l)) (vWin_pos _)
  show w.mu ≤ w.mu + _
  linarith

lemma rateWinLoss_loser_mu (w l : Rating) : (rateWinLoss w l).2.mu ≤ l.mu := by
  have h : 0 < (l.sigma ^ 2 + TAU ^ 2) / Real.sqrt (tsC2 w l) * vWin (tsT w l) :=
    mul_pos (div_pos (varTau_pos l.sigma) (sqrt_tsC2_pos w l)) (vWin_pos _)
  show l.mu - _ ≤ l.mu
  linarith

lemma shrink_le_var (x : ℝ) (w l : Rating) :
    (x ^ 2 + TAU ^ 2) * (1 - (x ^ 2 + TAU ^ 2) / tsC2 w l * wWin (tsT w l))
      ≤ x ^ 2 + TAU ^ 2 := by
  have hk : 0 ≤ (x ^ 2 + TAU ^ 2) / tsC2 w l * wWin (tsT w l) :=
    mul_nonneg (div_nonneg (varTau_pos x).le (tsC2_pos w l).le) (wWin_nonneg _)
  nlinarith [varTau_pos x]

lemma rateWinLoss_winner_sigma (w l : Rating) :
    (rateWinLoss w l).1.sigma ≤ Real.sqrt (w.sigma ^ 2 + TAU ^ 2) :=
  Real.sqrt_le_sqrt (shrink_le_var w.sigma w l)

lemma rateWinLoss_loser_sigma (w l : Rating) :
    (rateWinLoss w l).2.sigma ≤ Real.sqrt (l.sigma ^ 2 + TAU ^ 2) :=
  Real.sqrt_le_sqrt (shrink_le_var l.sigma w l)

lemma cx_tsC2_eq :
    tsC2 ⟨100, 8.3333⟩ ⟨0, 8.3333⟩ = 17362443334 / 100000000 := by
  unfold tsC2 TAU BETA
  norm_num

lemma cx_T_nonneg : 0 ≤ tsT ⟨100, 8.3333⟩ ⟨0, 8.3333⟩ := by
  show (0 : ℝ) ≤ (100 - 0) / Real.sqrt (tsC2 ⟨100, 8.3333⟩ ⟨0, 8.3333⟩)
  positivity

lemma cx_T_le : tsT ⟨100, 8.3333⟩ ⟨0, 8.3333⟩ ≤ 8 := by
  show ((100 : ℝ) - 0) / Real.sqrt (tsC2 ⟨100, 8.3333⟩ ⟨0, 8.3333⟩) ≤ 8
  rw [div_le_iff₀ (sqrt_tsC2_pos _ _)]
  have h1 : (12.5 : ℝ) ≤ Real.sqrt (tsC2 ⟨100, 8.3333⟩ ⟨0, 8.3333⟩) := by
    rw [Real.le_sqrt (by norm_num) (tsC2_pos _ _).le, cx_tsC2_eq]
    norm_num
  nlinarith [sqrt_tsC2_pos (⟨100, 8.3333⟩ : Rating) (⟨0, 8.3333⟩ : Rating)]

lemma cx_T_sq :
    tsT ⟨100, 8.3333⟩ ⟨0, 8.3333⟩ ^ 2 = 10 ^ 12 / 17362443334 := by
  show (((100 : ℝ) - 0) / Real.sqrt (tsC2 ⟨100, 8.3333⟩ ⟨0, 8.3333⟩)) ^ 2 = _
  rw [div_pow, Real.sq_sqrt (tsC2_pos _ _).le, cx_tsC2_eq]
  norm_num

lemma exp_neg28_le : Real.exp (-28) ≤ 1 / 10 ^ 8 := by
  rw [Real.exp_neg]
  have h1 : (2 : ℝ) ≤ Real.exp 1 := by
    have := Real.exp_one_gt_d9
    linarith
  have h2 : (2 : ℝ) ^ (28 : ℕ) ≤ Real.exp 1 ^ (28 : ℕ) :=
    pow_le_pow_left₀ (by norm_num) h1 28
  rw [Real.exp_one_pow] at h2
  have h3 : ((28 : ℕ) : ℝ) = (28 : ℝ) := by norm_num
  rw [h3] at h2
  have h4 : (0 : ℝ) < 2 ^ (28 : ℕ) := by positivity
  have h5 := inv_anti₀ h4 h2
  calc (Real.exp 28)⁻¹ ≤ ((2 : ℝ) ^ (28 : ℕ))⁻¹ := h5
    _ ≤ 1 / 10 ^ 8 := by norm_num

lemma cx_wWin_le : wWin (tsT ⟨100, 8.3333⟩ ⟨0, 8.3333⟩) ≤ 1 / 10 ^ 7 := by
  have hT0 := cx_T_nonneg
  have hTle := cx_T_le
  have hE : Real.exp (-(tsT ⟨100, 8.3333⟩ ⟨0, 8.3333⟩ ^ 2) / 2) ≤ 1 / 10 ^ 8 := by
    refine le_trans (Real.exp_le_exp.mpr ?_) exp_neg28_le
    have h56 : (56 : ℝ) ≤ tsT ⟨100, 8.3333⟩ ⟨0, 8.3333⟩ ^ 2 := by
      rw [cx_T_sq]; norm_num
    linarith
  have hv : vWin (tsT ⟨100, 8.3333⟩ ⟨0, 8.3333⟩) ≤ 1 / 10 ^ 8 :=
    le_trans (vWin_le_exp hT0) hE
  have hvpos := (vWin_pos (tsT ⟨100, 8.3333⟩ ⟨0, 8.3333⟩)).le
  unfold wWin
  calc vWin (tsT ⟨100, 8.3333⟩ ⟨0, 8.3333⟩)
        * (vWin (tsT ⟨100, 8.3333⟩ ⟨0, 8.3333⟩) + tsT ⟨100, 8.3333⟩ ⟨0, 8.3333⟩)
      ≤ 1 / 10 ^ 8 * (1 / 10 ^ 8 + 8) :=
        mul_le_mul hv (add_le_add hv hTle) (add_nonneg hvpos hT0) (by norm_num)
    _ ≤ 1 / 10 ^ 7 := by norm_num

lemma cx_sigma_gt :
    (8.3333 : ℝ) < (rateWinLoss ⟨100, 8.3333⟩ ⟨0, 8.3333⟩).1.sigma := by
  have hsq : (8.3333 : ℝ) ^ 2 <
      ((8.3333 : ℝ) ^ 2 + TAU ^ 2)
        * (1 - ((8.3333 : ℝ) ^ 2 + TAU ^ 2) / tsC2 ⟨100, 8.3333⟩ ⟨0, 8.3333⟩
            * wWin (tsT ⟨100, 8.3333⟩ ⟨0, 8.3333⟩)) := by
    have hw := cx_wWin_le
    have hwpos := wWin_nonneg (tsT ⟨100, 8.3333⟩ ⟨0, 8.3333⟩)
    rw [cx_tsC2_eq]
    unfold TAU
    nlinarith [hw, hwpos]
  show (8.3333 : ℝ) < Real.sqrt (((8.3333 : ℝ) ^ 2 + TAU ^ 2)
    * (1 - ((8.3333 : ℝ) ^ 2 + TAU ^ 2) / tsC2 ⟨100, 8.3333⟩ ⟨0, 8.3333⟩
        * wWin (tsT ⟨100, 8.3333⟩ ⟨0, 8.3333⟩)))
  calc (8.3333 : ℝ) = Real.sqrt ((8.3333 : ℝ) ^ 2) :=
        (Real.sqrt_sq (by norm_num)).symm
    _ < _ := Real.sqrt_lt_sqrt (by positivity) hsq

/-- C1 counterexample: with the configured dynamics constant tau = 0.0833, a
heavy favorite (mu 100 versus mu 0, both sigma 8.3333) that wins the match
comes out of calculate_new_ratings with a LARGER sigma than before, refuting
the claim that each new stddev is at most the old stddev. -/
theorem c1_counterexample :
    calculate_new_ratings ⟨1, 100, 8.3333, 0, 0, 0, true⟩ ⟨2, 0, 8.3333, 0, 0, 0, true⟩ 1
        = Except.ok (rateWinLoss ⟨100, 8.3333⟩ ⟨0, 8.3333⟩) ∧
      ¬ (rateWinLoss ⟨100, 8.3333⟩ ⟨0, 8.3333⟩).1.sigma ≤ (8.3333 : ℝ) := by
  constructor
  · rfl
  · exact not_le.mpr cx_sigma_gt

/-- C1 (amended): for either admissible winner the update returns new beliefs
in which the winner mean does not decrease and the loser mean does not
increase; each new stddev is bounded by the tau-inflated old stddev
sqrt(sigma^2 + tau^2) rather than by the old stddev itself. -/
theorem c1_update_monotonicity (player1 player2 : Player) (winner_id : ℤ)
    (h : winner_id = player1.id ∨ winner_id = player2.id) :
    ∃ r1 r2 : Rating,
      calculate_new_ratings player1 player2 winner_id = Except.ok (r1, r2) ∧
      ((winner_id = player1.id ∧ player1.trueskill_mu ≤ r1.mu
          ∧ r2.mu ≤ player2.trueskill_mu) ∨
       (winner_id ≠ player1.id ∧ winner_id = player2.id
          ∧ player2.trueskill_mu ≤ r2.mu ∧ r1.mu ≤ player1.trueskill_mu)) ∧
      r1.sigma ≤ Real.sqrt (player1.trueskill_sigma ^ 2 + TAU ^ 2) ∧
      r2.sigma ≤ Real.sqrt (player2.trueskill_sigma ^ 2 + TAU ^ 2) := by
  by_cases h1 : winner_id = player1.id
  · refine ⟨(rateWinLoss (get_player_rating player1) (get_player_rating player2)).1,
      (rateWinLoss (get_player_rating player1) (get_player_rating player2)).2, ?_, ?_, ?_, ?_⟩
    · simp [calculate_new_ratings, h1]
    · exact Or.inl ⟨h1,
        rateWinLoss_winner_mu (get_player_rating player1) (get_player_rating player2),
        rateWinLoss_loser_mu (get_player_rating player1) (get_player_rating player2)⟩
    · exact rateWinLoss_winner_sigma (get_player_rating player1) (get_player_rating player2)
    · exact rateWinLoss_loser_sigma (get_player_rating player1) (get_player_rating player2)
  · have h2 : winner_id = player2.id := h.resolve_left h1
    refine ⟨(rateWinLoss (get_player_rating player2) (get_player_rating player1)).2,
      (rateWinLoss (get_player_rating player2) (get_player_rating player1)).1, ?_, ?_, ?_, ?_⟩
    · simp only [calculate_new_ratings, if_neg h1, if_pos h2]
    · exact Or.inr ⟨h1, h2,
        rateWinLoss_winner_mu (get_player_rating player2) (get_player_rating player1),
        rateWinLoss_loser_mu (get_player_rating player2) (get_player_rating player1)⟩
    · exact rateWinLoss_loser_sigma (get_player_rating player2) (get_player_rating player1)
    · exact rateWinLoss_winner_sigma (get_player_rating player2) (get_player_rating player1)

/-- C2 counterexample: at the default belief (mu 25, sigma 8.3333) the match
quality of a player against an identical player is strictly below 1 (it equals
sqrt(2 beta^2 / (2 beta^2 + 2 sigma^2)), roughly 0.447), refuting the claim
that identical beliefs give quality 1.0. -/
theorem c2_counterexample :
    get_match_quality ⟨1, 25, 8.3333, 0, 0, 0, true⟩ ⟨2, 25, 8.3333, 0, 0, 0, true⟩
      ≠ 1 := by
  have hval : get_match_quality ⟨1, 25, 8.3333, 0, 0, 0, true⟩
      ⟨2, 25, 8.3333, 0, 0, 0, true⟩
      = Real.sqrt (2 * BETA ^ 2 / (2 * BETA ^ 2 + 8.3333 ^ 2 + 8.3333 ^ 2)) := by
    unfold get_match_quality qualityTwoTeams get_player_rating
    norm_num
  rw [hval]
  have hlt : Real.sqrt (2 * BETA ^ 2 / (2 * BETA ^ 2 + 8.3333 ^ 2 + 8.3333 ^ 2)) < 1 := by
    have h1 : 2 * BETA ^ 2 / (2 * BETA ^ 2 + 8.3333 ^ 2 + 8.3333 ^ 2) < 1 := by
      unfold BETA
      rw [div_lt_one (by norm_num)]
      norm_num
    calc Real.sqrt (2 * BETA ^ 2 / (2 * BETA ^ 2 + 8.3333 ^ 2 + 8.3333 ^ 2))
        < Real.sqrt 1 := Real.sqrt_lt_sqrt (by unfold BETA; positivity) h1
      _ = 1 := Real.sqrt_one
  exact ne_of_lt hlt

/-- C2 (amended): for a belief with positive sigma, the match quality against
an identical belief equals sqrt(2 beta^2 / (2 beta^2 + 2 sigma^2)), which is
strictly less than 1; it is not 1.0. -/
theorem c2_quality_self (p : Player) (h : 0 < p.trueskill_sigma) :
    get_match_quality p p
        = Real.sqrt (2 * BETA ^ 2 / (2 * BETA ^ 2 + 2 * p.trueskill_sigma ^ 2)) ∧
      get_match_quality p p < 1 := by
  have hval : get_match_quality p p
      = Real.sqrt (2 * BETA ^ 2 / (2 * BETA ^ 2 + 2 * p.trueskill_sigma ^ 2)) := by
    unfold get_match_quality qualityTwoTeams get_player_rating
    rw [sub_self]
    norm_num
    rw [show 2 * BETA ^ 2 + p.trueskill_sigma ^ 2 + p.trueskill_sigma ^ 2
        = 2 * BETA ^ 2 + 2 * p.trueskill_sigma ^ 2 from by ring]
  refine ⟨hval, ?_⟩
  rw [hval]
  have h1 : 2 * BETA ^ 2 / (2 * BETA ^ 2 + 2 * p.trueskill_sigma ^ 2) < 1 := by
    rw [div_lt_one (by unfold BETA; positivity)]
    nlinarith
  calc Real.sqrt (2 * BETA ^ 2 / (2 * BETA ^ 2 + 2 * p.trueskill_sigma ^ 2))
      < Real.sqrt 1 := Real.sqrt_lt_sqrt (by unfold BETA; positivity) h1
    _ = 1 := Real.sqrt_one

/-- Witness for c2_quality_self at the default belief. -/
theorem c2_quality_self_witness :
    (0 : ℝ) < (⟨1, 25, 8.3333, 0, 0, 0, true⟩ : Player).trueskill_sigma ∧
    (get_match_quality ⟨1, 25, 8.3333, 0, 0, 0, true⟩ ⟨1, 25, 8.3333, 0, 0, 0, true⟩
        = Real.sqrt (2 * BETA ^ 2 / (2 * BETA ^ 2
            + 2 * (⟨1, 25, 8.3333, 0, 0, 0, true⟩ : Player).trueskill_sigma ^ 2)) ∧
      get_match_quality ⟨1, 25, 8.3333, 0, 0, 0, true⟩ ⟨1, 25, 8.3333, 0, 0, 0, true⟩
        < 1) :=
  ⟨by norm_num, c2_quality_self ⟨1, 25, 8.3333, 0, 0, 0, true⟩ (by norm_num)⟩

/-- C4: win probabilities of the two orderings sum to 1 within 1e-6 (here they
sum to exactly 1), and a player against an identical belief gets 0.5. -/
theorem c4_win_probability_complement (player1 player2 : Player) :
    |predict_win_probability player1 player2
        + predict_win_probability player2 player1 - 1| ≤ 1 / 10 ^ 6 ∧
      predict_win_probability player1 player1 = 0.5 := by
  constructor
  · unfold predict_win_probability
    rw [show (player2.trueskill_mu - player1.trueskill_mu)
          / Real.sqrt (2 * BETA ^ 2
              + (player2.trueskill_sigma ^ 2 + player1.trueskill_sigma ^ 2))
        = -((player1.trueskill_mu - player2.trueskill_mu)
          / Real.sqrt (2 * BETA ^ 2
              + (player1.trueskill_sigma ^ 2 + player2.trueskill_sigma ^ 2))) from by
      rw [show 2 * BETA ^ 2 + (player2.trueskill_sigma ^ 2 + player1.trueskill_sigma ^ 2)
          = 2 * BETA ^ 2 + (player1.trueskill_sigma ^ 2 + player2.trueskill_sigma ^ 2)
        from by ring]
      ring]
    rw [normalCdf_add_neg]
    norm_num
  · unfold predict_win_probability
    rw [sub_self, zero_div, normalCdf_zero]
    norm_num

/-- C5: the initial team belief adds means and combines variances; for two
default members (25, 8.3333) this gives mean 50 and sigma within 0.001
of 11.785. -/
theorem c5_initial_team_rating :
    (∀ player1 player2 : Player,
      calculate_initial_team_rating player1 player2
        = (player1.trueskill_mu + player2.trueskill_mu,
           Real.sqrt (player1.trueskill_sigma ^ 2 + player2.trueskill_sigma ^ 2))) ∧
    (calculate_initial_team_rating ⟨1, 25, 8.3333, 0, 0, 0, true⟩
        ⟨2, 25, 8.3333, 0, 0, 0, true⟩).1 = 50 ∧
    |(calculate_initial_team_rating ⟨1, 25, 8.3333, 0, 0, 0, true⟩
        ⟨2, 25, 8.3333, 0, 0, 0, true⟩).2 - 11.785| < 1 / 1000 := by
  refine ⟨fun p1 p2 => rfl, by norm_num [calculate_initial_team_rating], ?_⟩
  show |Real.sqrt ((8.3333 : ℝ) ^ 2 + (8.3333 : ℝ) ^ 2) - 11.785| < 1 / 1000
  have hlo : (11.785 : ℝ) < Real.sqrt ((8.3333 : ℝ) ^ 2 + (8.3333 : ℝ) ^ 2) := by
    rw [Real.lt_sqrt (by norm_num)]
    norm_num
  have hhi : Real.sqrt ((8.3333 : ℝ) ^ 2 + (8.3333 : ℝ) ^ 2) < 11.7852 := by
    rw [show (11.7852 : ℝ) = Real.sqrt (11.7852 ^ 2) from
      (Real.sqrt_sq (by norm_num)).symm]
    apply Real.sqrt_lt_sqrt (by positivity)
    norm_num
  rw [abs_lt]
  constructor
  · linarith
  · linarith

/-- Witness for c1_update_monotonicity at two concrete default-rated players
with player 1 as the winner. -/
theorem c1_update_monotonicity_witness :
    ((1 : ℤ) = (⟨1, 25, 8.3333, 0, 0, 0, true⟩ : Player).id
        ∨ (1 : ℤ) = (⟨2, 25, 8.3333, 0, 0, 0, true⟩ : Player).id) ∧
    (∃ r1 r2 : Rating,
      calculate_new_ratings ⟨1, 25, 8.3333, 0, 0, 0, true⟩
          ⟨2, 25, 8.3333, 0, 0, 0, true⟩ 1 = Except.ok (r1, r2) ∧
      (((1 : ℤ) = (⟨1, 25, 8.3333, 0, 0, 0, true⟩ : Player).id
          ∧ (⟨1, 25, 8.3333, 0, 0, 0, true⟩ : Player).trueskill_mu ≤ r1.mu
          ∧ r2.mu ≤ (⟨2, 25, 8.3333, 0, 0, 0, true⟩ : Player).trueskill_mu) ∨
       ((1 : ℤ) ≠ (⟨1, 25, 8.3333, 0, 0, 0, true⟩ : Player).id
          ∧ (1 : ℤ) = (⟨2, 25, 8.3333, 0, 0, 0, true⟩ : Player).id
          ∧ (⟨2, 25, 8.3333, 0, 0, 0, true⟩ : Player).trueskill_mu ≤ r2.mu
          ∧ r1.mu ≤ (⟨1, 25, 8.3333, 0, 0, 0, true⟩ : Player).trueskill_mu)) ∧
      r1.sigma ≤ Real.sqrt
        ((⟨1, 25, 8.3333, 0, 0, 0, true⟩ : Player).trueskill_sigma ^ 2 + TAU ^ 2) ∧
      r2.sigma ≤ Real.sqrt
        ((⟨2, 25, 8.3333, 0, 0, 0, true⟩ : Player).trueskill_sigma ^ 2 + TAU ^ 2)) :=
  ⟨Or.inl rfl, c1_update_monotonicity _ _ 1 (Or.inl rfl)⟩

/-- C6: the team key is symmetric and equals (min, max) for distinct ids, and
fails with ValueError for equal ids. -/
theorem c6_team_key (a b : ℤ) :
    (a ≠ b → create_team_key a b = Except.ok (min a b, max a b)
      ∧ create_team_key a b = create_team_key b a) ∧
    (a = b → create_team_key a b = Except.error "Players must be different") := by
  constructor
  · intro h
    constructor
    · simp [create_team_key, h]
    · simp [create_team_key, h, Ne.symm h, min_comm, max_comm]
  · intro h
    simp [create_team_key, h]

/-- Witness for c6_team_key at the concrete pair (3, 1). -/
theorem c6_team_key_witness :
    (3 : ℤ) ≠ 1 ∧
    (create_team_key 3 1 = Except.ok (min 3 1, max 3 1)
      ∧ create_team_key 3 1 = create_team_key 1 3) :=
  ⟨by decide, (c6_team_key 3 1).1 (by decide)⟩

/-- C3 counterexample: a window whose filtered history holds exactly one entry
(before rating 10, after rating 15) is non-empty, yet the code returns a
rating change of 0 instead of the claimed after-minus-before difference 5. -/
theorem c3_counterexample :
    ((([⟨0, 25, 5, 30, 5⟩] : List RatingHistoryEntry).filter
        (fun r => (0 : ℤ) ≤ r.created_at)).length = 1) ∧
    trend_rating_change [⟨0, 25, 5, 30, 5⟩] 0
      ≠ conservative_rating_after ⟨0, 25, 5, 30, 5⟩
        - conservative_rating_before ⟨0, 25, 5, 30, 5⟩ := by
  constructor
  · decide
  · have h0 : trend_rating_change [⟨0, 25, 5, 30, 5⟩] 0 = 0 := rfl
    rw [h0]
    norm_num [conservative_rating_after, conservative_rating_before]

/-- C3 (amended): the windowed rating change is the conservative rating after
the last filtered entry minus the conservative rating before the first
filtered entry whenever the filtered set has at least TWO entries, and 0
whenever it has at most one entry (in particular also for a singleton
non-empty window). -/
theorem c3_trend_rating_change (rating_history : List RatingHistoryEntry)
    (cutoff : ℤ) :
    ((rating_history.filter (fun r => cutoff ≤ r.created_at)).length ≤ 1 →
      trend_rating_change rating_history cutoff = 0) ∧
    (∀ e l : RatingHistoryEntry,
      (rating_history.filter (fun r => cutoff ≤ r.created_at)).head? = some e →
      (rating_history.filter (fun r => cutoff ≤ r.created_at)).getLast? = some l →
      2 ≤ (rating_history.filter (fun r => cutoff ≤ r.created_at)).length →
      trend_rating_change rating_history cutoff
        = conservative_rating_after l - conservative_rating_before e) := by
  unfold trend_rating_change
  constructor
  · intro hlen
    cases hp : rating_history.filter (fun r => cutoff ≤ r.created_at) with
    | nil => rfl
    | cons e rest =>
      rw [hp] at hlen
      simp only [List.length_cons] at hlen
      have hrest : rest = [] := by
        cases rest with
        | nil => rfl
        | cons x xs => simp at hlen
      subst hrest
      simp [trend_change_of_period]
  · intro e l he hl hlen
    cases hp : rating_history.filter (fun r => cutoff ≤ r.created_at) with
    | nil =>
      rw [hp] at he
      simp at he
    | cons x xs =>
      rw [hp] at he hl hlen
      have hx : x = e := by
        simp only [List.head?_cons, Option.some.injEq] at he
        exact he
      subst hx
      have hlast : (x :: xs).getLast (List.cons_ne_nil x xs) = l := by
        rw [List.getLast?_eq_getLast (x :: xs) (List.cons_ne_nil x xs)] at hl
        simpa using hl
      simp only [trend_change_of_period, if_pos hlen, hlast]

/-- Witness for c3_trend_rating_change on a two-entry history. -/
theorem c3_trend_rating_change_witness :
    (([⟨0, 25, 5, 30, 5⟩, ⟨1, 30, 5, 28, 4⟩] : List RatingHistoryEntry).filter
        (fun r => (0 : ℤ) ≤ r.created_at)).head? = some ⟨0, 25, 5, 30, 5⟩ ∧
    (([⟨0, 25, 5, 30, 5⟩, ⟨1, 30, 5, 28, 4⟩] : List RatingHistoryEntry).filter
        (fun r => (0 : ℤ) ≤ r.created_at)).getLast? = some ⟨1, 30, 5, 28, 4⟩ ∧
    2 ≤ (([⟨0, 25, 5, 30, 5⟩, ⟨1, 30, 5, 28, 4⟩] : List RatingHistoryEntry).filter
        (fun r => (0 : ℤ) ≤ r.created_at)).length ∧
    trend_rating_change [⟨0, 25, 5, 30, 5⟩, ⟨1, 30, 5, 28, 4⟩] 0
      = conservative_rating_after ⟨1, 30, 5, 28, 4⟩
        - conservative_rating_before ⟨0, 25, 5, 30, 5⟩ :=
  ⟨rfl, rfl, by decide,
    (c3_trend_rating_change [⟨0, 25, 5, 30, 5⟩, ⟨1, 30, 5, 28, 4⟩] 0).2
      ⟨0, 25, 5, 30, 5⟩ ⟨1, 30, 5, 28, 4⟩ rfl rfl (by decide)⟩

lemma streak_scan_eq_takeWhile (player_id : ℤ) (b : Bool) (l : List GameRec) :
    streak_scan player_id (if b then "W" else "L") l
      = (l.takeWhile (fun g => decide (g.winner_id = player_id) == b)).length := by
  induction l with
  | nil => cases b <;> rfl
  | cons g rest ih =>
    cases b <;> by_cases hg : g.winner_id = player_id <;>
      simp_all [streak_scan, List.takeWhile_cons]

/-- C7: with at least one game the current streak takes its type from the most
recent game and its count from the run of consecutive same-result games; with
zero games it is the sentinel string, not a zero streak. -/
theorem c7_current_streak (player_id : ℤ) (all_games : List GameRec) :
    (all_games = [] → current_streak player_id all_games = "No games played") ∧
    (∀ g rest, all_games = g :: rest →
      current_streak player_id all_games
        = toString ((all_games.takeWhile (fun x =>
              decide (x.winner_id = player_id) == decide (g.winner_id = player_id))).length)
          ++ " game "
          ++ (if g.winner_id = player_id then "win" else "loss")
          ++ " streak") := by
  constructor
  · intro h
    rw [h]
    rfl
  · intro g rest h
    subst h
    by_cases hg : g.winner_id = player_id
    · have hs := streak_scan_eq_takeWhile player_id true (g :: rest)
      simp only [if_true] at hs
      simp [current_streak, hg, hs]
    · have hs := streak_scan_eq_takeWhile player_id false (g :: rest)
      simp only [Bool.false_eq_true, if_false] at hs
      simp [current_streak, hg, hs]

/-- Witness for c7_current_streak: games W, W, L most recent first give a
2 game win streak. -/
theorem c7_current_streak_witness :
    ([⟨1⟩, ⟨1⟩, ⟨2⟩] : List GameRec) = ⟨1⟩ :: [⟨1⟩, ⟨2⟩] ∧
    current_streak 1 [⟨1⟩, ⟨1⟩, ⟨2⟩]
      = toString ((([⟨1⟩, ⟨1⟩, ⟨2⟩] : List GameRec).takeWhile (fun x =>
            decide (x.winner_id = 1) == decide ((⟨1⟩ : GameRec).winner_id = 1))).length)
        ++ " game "
        ++ (if (⟨1⟩ : GameRec).winner_id = (1 : ℤ) then "win" else "loss")
        ++ " streak" :=
  ⟨rfl, (c7_current_streak 1 [⟨1⟩, ⟨1⟩, ⟨2⟩]).2 ⟨1⟩ [⟨1⟩, ⟨2⟩] rfl⟩

/-- C8: the i-th entry of a leaderboard page (0-based i) carries rank
(page - 1) * page_size + i + 1 and is exactly the row at that 1-based position
of the full sorted query, not a rank local to the page. -/
theorem c8_leaderboard_rank (players : List LeaderboardPlayer)
    (page page_size min_games : ℕ) (sort_by : String) (i r : ℕ)
    (p : LeaderboardPlayer)
    (h : (get_enhanced_leaderboard players page page_size min_games sort_by)[i]?
      = some (r, p)) :
    r = (page - 1) * page_size + (i + 1) ∧
    (leaderboard_query players min_games sort_by)[(page - 1) * page_size + i]?
      = some p := by
  unfold get_enhanced_leaderboard at h
  simp only [List.getElem?_map, List.getElem?_enum] at h
  cases htake : (((leaderboard_query players min_games sort_by).drop
      ((page - 1) * page_size)).take page_size)[i]? with
  | none =>
    rw [htake] at h
    simp at h
  | some q =>
    rw [htake] at h
    simp only [Option.map_some', Prod.mk.injEq, Option.some.injEq] at h
    obtain ⟨hr, hq⟩ := h
    rw [List.getElem?_take] at htake
    by_cases hi : i < page_size
    · rw [if_pos hi, List.getElem?_drop] at htake
      subst hq
      exact ⟨by omega, htake⟩
    · rw [if_neg hi] at htake
      exact absurd htake (by simp)

/-- Witness for c8_leaderboard_rank: three active players, page 2 of size 1;
the single entry of that page carries rank 2 and is the second row of the full
sorted ordering. -/
theorem c8_leaderboard_rank_witness :
    (get_enhanced_leaderboard [lbA, lbB, lbC] 2 1 0 "rating")[0]? = some (2, lbA) ∧
    ((2 : ℕ) = (2 - 1) * 1 + (0 + 1) ∧
      (leaderboard_query [lbA, lbB, lbC] 0 "rating")[(2 - 1) * 1 + 0]? = some lbA) :=
  ⟨by norm_num [get_enhanced_leaderboard, leaderboard_query, sort_desc, insert_desc,
      leaderboard_sort_key, conservative_rating, lbA, lbB, lbC, List.filter],
   c8_leaderboard_rank [lbA, lbB, lbC] 2 1 0 "rating" 0 2 lbA
     (by norm_num [get_enhanced_leaderboard, leaderboard_query, sort_desc, insert_desc,
        leaderboard_sort_key, conservative_rating, lbA, lbB, lbC, List.filter])⟩

/-- C9: whenever the four player slots of a quick team-game request hold any
duplicate id - in particular one player listed once on each side - the
endpoint answers with the duplicate-players validation error and the database
state is returned untouched: no team, game, rating or player row is created
or modified. -/
theorem c9_duplicate_players_rejected (req : TeamFormationRequest) (db : DB)
    (h : ([req.team1_player1_id, req.team1_player2_id, req.team2_player1_id,
        req.team2_player2_id] : List ℤ).dedup.length ≠ 4) :
    create_team_game_from_players req db
      = (db, Except.error "All four players must be different") := by
  simp only [create_team_game_from_players]
  rw [if_pos h]

/-- Witness for c9_duplicate_players_rejected: player 1 appears in both teams
of the request, and the database value is returned unchanged. -/
theorem c9_duplicate_players_rejected_witness :
    (([(1 : ℤ), 2, 1, 3] : List ℤ).dedup.length ≠ 4) ∧
    create_team_game_from_players ⟨1, 2, 1, 3, 1⟩ ⟨[], [], [], 1⟩
      = (⟨[], [], [], 1⟩, Except.error "All four players must be different") :=
  ⟨by decide,
   c9_duplicate_players_rejected ⟨1, 2, 1, 3, 1⟩ ⟨[], [], [], 1⟩ (by decide)⟩

/-- C10: update_players_from_team_game performs no winner validation: any
winner team id other than the id of team 1 - including ids that belong to
neither team - is treated as a win for team 2: the call succeeds, the members
of team 2 get the winning 2v2 ratings and a win, the members of team 1 get the
losing ratings and a loss, and all four games_played counters are bumped. -/
theorem c10_unknown_winner_counts_as_team2 (team1 team2 : TeamWithPlayers)
    (winner_team_id : ℤ) (h : winner_team_id ≠ team1.id) :
    ∃ q11 q12 q21 q22 : Player,
      update_players_from_team_game team1 team2 winner_team_id
        = Except.ok ((q11, q12), (q21, q22)) ∧
      (let r := rateTeamWin (get_player_rating team2.player1)
          (get_player_rating team2.player2) (get_player_rating team1.player1)
          (get_player_rating team1.player2)
       q21.trueskill_mu = r.1.1.mu ∧ q21.trueskill_sigma = r.1.1.sigma ∧
       q22.trueskill_mu = r.1.2.mu ∧ q22.trueskill_sigma = r.1.2.sigma ∧
       q11.trueskill_mu = r.2.1.mu ∧ q11.trueskill_sigma = r.2.1.sigma ∧
       q12.trueskill_mu = r.2.2.mu ∧ q12.trueskill_sigma = r.2.2.sigma) ∧
      q21.wins = team2.player1.wins + 1 ∧ q21.losses = team2.player1.losses ∧
      q22.wins = team2.player2.wins + 1 ∧ q22.losses = team2.player2.losses ∧
      q11.wins = team1.player1.wins ∧ q11.losses = team1.player1.losses + 1 ∧
      q12.wins = team1.player2.wins ∧ q12.losses = team1.player2.losses + 1 ∧
      q11.games_played = team1.player1.games_played + 1 ∧
      q12.games_played = team1.player2.games_played + 1 ∧
      q21.games_played = team2.player1.games_played + 1 ∧
      q22.games_played = team2.player2.games_played + 1 := by
  simp only [update_players_from_team_game, calculate_team_vs_individual_ratings,
    if_neg h, if_neg (by norm_num : (2 : ℤ) ≠ 1), if_pos rfl]
  exact ⟨_, _, _, _, rfl, ⟨rfl, rfl, rfl, rfl, rfl, rfl, rfl, rfl⟩,
    rfl, rfl, rfl, rfl, rfl, rfl, rfl, rfl, rfl, rfl, rfl, rfl⟩

/-- Witness for c10_unknown_winner_counts_as_team2 with winner id 99, which is
neither team 1 (id 1) nor team 2 (id 2). -/
theorem c10_unknown_winner_witness :
    ((99 : ℤ) ≠ (⟨1, ⟨11, 25, 8.3333, 0, 0, 0, true⟩,
        ⟨12, 25, 8.3333, 0, 0, 0, true⟩⟩ : TeamWithPlayers).id) ∧
    (∃ q11 q12 q21 q22 : Player,
      update_players_from_team_game
          ⟨1, ⟨11, 25, 8.3333, 0, 0, 0, true⟩, ⟨12, 25, 8.3333, 0, 0, 0, true⟩⟩
          ⟨2, ⟨21, 25, 8.3333, 0, 0, 0, true⟩, ⟨22, 25, 8.3333, 0, 0, 0, true⟩⟩ 99
        = Except.ok ((q11, q12), (q21, q22)) ∧
      (let r := rateTeamWin
          (get_player_rating ⟨21, 25, 8.3333, 0, 0, 0, true⟩)
          (get_player_rating ⟨22, 25, 8.3333, 0, 0, 0, true⟩)
          (get_player_rating ⟨11, 25, 8.3333, 0, 0, 0, true⟩)
          (get_player_rating ⟨12, 25, 8.3333, 0, 0, 0, true⟩)
       q21.trueskill_mu = r.1.1.mu ∧ q21.trueskill_sigma = r.1.1.sigma ∧
       q22.trueskill_mu = r.1.2.mu ∧ q22.trueskill_sigma = r.1.2.sigma ∧
       q11.trueskill_mu = r.2.1.mu ∧ q11.trueskill_sigma = r.2.1.sigma ∧
       q12.trueskill_mu = r.2.2.mu ∧ q12.trueskill_sigma = r.2.2.sigma) ∧
      q21.wins = (0 : ℤ) + 1 ∧ q21.losses = (0 : ℤ) ∧
      q22.wins = (0 : ℤ) + 1 ∧ q22.losses = (0 : ℤ) ∧
      q11.wins = (0 : ℤ) ∧ q11.losses = (0 : ℤ) + 1 ∧
      q12.wins = (0 : ℤ) ∧ q12.losses = (0 : ℤ) + 1 ∧
      q11.games_played = (0 : ℤ) + 1 ∧
      q12.games_played = (0 : ℤ) + 1 ∧
      q21.games_played = (0 : ℤ) + 1 ∧
      q22.games_played = (0 : ℤ) + 1) :=
  ⟨by decide,
   c10_unknown_winner_counts_as_team2
     ⟨1, ⟨11, 25, 8.3333, 0, 0, 0, true⟩, ⟨12, 25, 8.3333, 0, 0, 0, true⟩⟩
     ⟨2, ⟨21, 25, 8.3333, 0, 0, 0, true⟩, ⟨22, 25, 8.3333, 0, 0, 0, true⟩⟩
     99 (by decide)⟩

end Foozball

end
